import Mathlib

/-!
Verification model of `enum_chain.py`, a sequential five-stage reconnaissance
pipeline driver.  The script is shallowly embedded: external subprocesses and
file reads are oracles supplied as function parameters, and every observable
side effect (subprocess spawn, file write, directory creation) is recorded in
an explicit effect trace.
-/

namespace EnumChain

/-! ## Python text semantics on character lists -/

/-- Split a character list at every occurrence of `sep`, keeping empty pieces,
mirroring Python `str.split(sep)` for a one-character separator. -/
def splitOnChar (sep : Char) : List Char → List (List Char)
  | [] => [[]]
  | c :: cs =>
    match splitOnChar sep cs with
    | [] => [[]]
    | h :: t => if c = sep then [] :: h :: t else (c :: h) :: t

/-- Re-attach the `\n` terminators removed by `splitOnChar '\n'`: every piece
except the last gets its newline back, and a trailing empty piece (from a
final newline) disappears.  `addNl (splitOnChar '\n' l)` is exactly the list
of lines Python file iteration / `readlines()` yields for the text `l`. -/
def addNl : List (List Char) → List (List Char)
  | [] => []
  | [p] => if p = [] then [] else [p]
  | p :: q :: r => (p ++ ['\n']) :: addNl (q :: r)

/-- The lines of a text as Python file iteration produces them (each line keeps
its trailing newline; no empty final line). -/
def pyLinesL (l : List Char) : List (List Char) :=
  addNl (splitOnChar '\n' l)

/-- Python `str.strip()`: drop leading and trailing whitespace characters. -/
def stripChars (l : List Char) : List Char :=
  ((l.dropWhile Char.isWhitespace).reverse.dropWhile Char.isWhitespace).reverse

/-- Accumulator-passing tokenizer: `wsTokensAux acc l` finishes the token
being built in `acc` (reversed) and splits the rest of `l` on runs of
whitespace, mirroring Python `str.split()` with no argument. -/
def wsTokensAux : List Char → List Char → List (List Char)
  | acc, [] => if acc = [] then [] else [acc.reverse]
  | acc, c :: cs =>
    if c.isWhitespace then
      if acc = [] then wsTokensAux [] cs
      else acc.reverse :: wsTokensAux [] cs
    else wsTokensAux (c :: acc) cs

/-- Python `str.split()` (no argument): maximal runs of non-whitespace. -/
def pySplitWs (l : List Char) : List (List Char) :=
  wsTokensAux [] l

/-! ## Target Loader and stage-4 clean-URL extraction (source lines 131-136
and 227-240) -/

/-- Source `targets = [line.strip() for line in f if line.strip()]`
(enum_chain.py line 136): iterate the lines of the file, strip each, keep the
non-blank ones in order without deduplication. -/
def load_targets_of (content : String) : List String :=
  (pyLinesL content.toList).filterMap fun line =>
    let s := stripChars line
    if s = [] then none else some (String.mk s)

/-- Spec-side restatement of the Target Loader: the newline-separated
pieces of the file, each trimmed, with blank results discarded, in original order. -/
def targetLoaderSpec (content : String) : List String :=
  (((splitOnChar '\n' content.toList).map stripChars).filter fun s => s ≠ []).map String.mk

/-- Source lines 229-235: for each `readlines()` line of the stage-4 detail
file, `parts = line.strip().split()`; when `parts` is non-empty its first
entry (the URL column) is kept. -/
def clean_urls_of (content : String) : List String :=
  (pyLinesL content.toList).filterMap fun line =>
    match pySplitWs (stripChars line) with
    | [] => none
    | t :: _ => some (String.mk t)

/-- Spec-side restatement of the clean-URL extraction: the first
whitespace-delimited token of every line that is non-blank after trimming,
over the newline-separated pieces of the file. -/
def cleanUrlSpec (content : String) : List String :=
  (splitOnChar '\n' content.toList).filterMap fun line =>
    match pySplitWs (stripChars line) with
    | [] => none
    | t :: _ => some (String.mk t)

/-! ## Process Runner (source lines 64-105) -/

/-- Subprocess environments are modelled as association lists from variable
names to values (insertion shadows earlier entries, as in a Python dict). -/
abbrev Env := List (String × String)

/-- Python dict assignment `e[k] = v`. -/
def envSet (e : Env) (k v : String) : Env :=
  (k, v) :: e.filter fun p => p.1 != k

/-- Python dict lookup `e.get(k)`. -/
def envGet (e : Env) (k : String) : Option String :=
  (e.find? fun p => p.1 == k).map fun p => p.2

/-- Model of `subprocess.run(..., env=environment)`: an explicit mapping replaces the
environment wholesale; `env=None` makes the child inherit the environment of the
calling process unchanged. -/
def receivedEnv (environment : Option Env) (os_environ : Env) : Env :=
  match environment with
  | some e => e
  | none => os_environ

/-- The outcome of one subprocess: exit status plus captured output texts
(the fields of a `subprocess.CompletedProcess`). -/
structure CmdResult where
  returncode : Int
  stdout : String
  stderr : String
deriving DecidableEq

/-- The behaviour of the outside world when a command is actually launched:
given argv, the standard-input text, and the explicit environment (if any),
what the subprocess exits with and prints. -/
abbrev ExecOracle := List String → Option String → Option Env → CmdResult

/-- One observable side effect of the script: launching a subprocess, writing
a file (from the own code of the script, not an external tool), or creating the
output directory. -/
inductive Effect where
  | spawn (command : List String) (input : Option String) (environment : Option Env)
  | fileWrite (path : String) (content : String)
  | mkdir (path : String)
deriving DecidableEq

/-- Python truthiness of an optional string: `None` and `""` are falsy. -/
def pyTruthy : Option String → Bool
  | none => false
  | some s => s != ""

/-- Source `run_command` (lines 64-105).  In dry-run mode nothing is spawned
or written and a synthetic success with stdout `"Simulated output\n"` is
returned.  Otherwise the command is spawned with `check=True`; on a non-zero
exit the `CalledProcessError` handler returns
`CompletedProcess(command, 1, stdout="", stderr=e.stderr)` and skips the
output-file write, while on success the captured stdout is written to
`output_file` when one was given. -/
def run_command (exec : ExecOracle) (command : List String) (input_data : Option String)
    (output_file : Option String) (environment : Option Env) (dry_run : Bool) :
    CmdResult × List Effect :=
  if dry_run then
    ({ returncode := 0, stdout := "Simulated output\n", stderr := "" }, [])
  else
    let result := exec command input_data environment
    if result.returncode ≠ 0 then
      ({ returncode := 1, stdout := "", stderr := result.stderr },
        [Effect.spawn command input_data environment])
    else
      match output_file with
      | some path =>
        (result, [Effect.spawn command input_data environment,
                  Effect.fileWrite path result.stdout])
      | none => (result, [Effect.spawn command input_data environment])

/-! ## Pipeline Driver (source lines 164-289) -/

/-- A record of one `run_command` call made by the driver: which pipeline
stage it belongs to (1-5, 6 for the Burp seeding call), its argv, the text
fed to its standard input, and the explicit environment passed (none means
the child inherits the process environment). -/
structure StageCall where
  idx : Nat
  command : List String
  input : Option String
  env : Option Env
deriving DecidableEq

/-- The per-target summary block (source lines 279-289): the absolute results
directory, whether the proxy notice is shown, and the clean-URL file named by
the manual-import notice when no proxy is configured. -/
structure SummaryBlock where
  resultsDir : String
  proxyNotice : Bool
  importFile : Option String
deriving DecidableEq

/-- Everything observable about processing one target: the pipeline stage
calls in order, the optional Burp-seeding call, the file-system/process
effect trace, which stage (if any) triggered the "Stopping chain" warning,
the summary block (if the end of the loop body was reached), and the value of
`current_input` when the iteration ends. -/
structure TargetOutcome where
  stageCalls : List StageCall
  seederCall : Option StageCall
  effects : List Effect
  warnedEmptyStage : Option Nat
  summary : Option SummaryBlock
  finalInput : Option String
deriving DecidableEq

/-- One iteration of the target loop (source lines 164-289).  `stale_input`
is the value `current_input` holds when the iteration begins (left over from
the previous target); line 169 (`current_input = None`) discards it before
any stage runs.  `readF` models `open(path).readlines()` on the stage-4
detail file that httpx writes itself (`none` = `FileNotFoundError`). -/
def processTargetWith (exec : ExecOracle) (readF : String → Option String)
    (abspath : String → String) (output_base_dir : String) (proxy : Option String)
    (proxy_url : String) (current_env : Env) (dry_run : Bool)
    (stale_input : Option String) (target : String) : TargetOutcome :=
  -- line 169: current_input = None
  let current_input : Option String := none
  -- 1. subfinder (lines 171-186)
  let subfinder_output_file := output_base_dir ++ "/" ++ target ++ "_subfinder.txt"
  let subfinder_cmd := ["subfinder", "-d", target, "-silent"]
  let c1 : StageCall := ⟨1, subfinder_cmd, none, none⟩
  let r1 := run_command exec c1.command c1.input none c1.env dry_run
  let current_input : Option String := some r1.1.stdout
  let effs1 := r1.2 ++
    (if pyTruthy current_input && !dry_run then
      [Effect.fileWrite subfinder_output_file r1.1.stdout]
    else [])
  if !pyTruthy current_input && !dry_run then
    { stageCalls := [c1], seederCall := none, effects := effs1,
      warnedEmptyStage := some 1, summary := none, finalInput := current_input }
  else
    -- 2. dnsx (lines 189-199)
    let dnsx_output_file := output_base_dir ++ "/" ++ target ++ "_dnsx.txt"
    let dnsx_cmd := ["dnsx", "-silent"]
    let c2 : StageCall := ⟨2, dnsx_cmd, current_input, none⟩
    let r2 := run_command exec c2.command c2.input (some dnsx_output_file) c2.env dry_run
    let current_input : Option String := some r2.1.stdout
    if !pyTruthy current_input && !dry_run then
      { stageCalls := [c1, c2], seederCall := none, effects := effs1 ++ r2.2,
        warnedEmptyStage := some 2, summary := none, finalInput := current_input }
    else
      -- 3. naabu (lines 202-212)
      let naabu_output_file := output_base_dir ++ "/" ++ target ++ "_naabu.txt"
      let naabu_cmd := ["naabu", "-p", "80,443,8080,8443", "-nmap-cli", "-silent"]
      let c3 : StageCall := ⟨3, naabu_cmd, current_input, none⟩
      let r3 := run_command exec c3.command c3.input (some naabu_output_file) c3.env dry_run
      let current_input : Option String := some r3.1.stdout
      if !pyTruthy current_input && !dry_run then
        { stageCalls := [c1, c2, c3], seederCall := none,
          effects := effs1 ++ r2.2 ++ r3.2,
          warnedEmptyStage := some 3, summary := none, finalInput := current_input }
      else
        -- 4. httpx (lines 215-251)
        let httpx_details_file := output_base_dir ++ "/" ++ target ++ "_httpx_details.txt"
        let urls_for_burp_file := output_base_dir ++ "/" ++ target ++ "_urls_for_burp.txt"
        let httpx_cmd := ["httpx", "-sc", "-cl", "-title", "-probe", "-silent",
            "-o", httpx_details_file] ++
          (match proxy with
           | some _ => ["-http-proxy", proxy_url]
           | none => [])
        let c4 : StageCall := ⟨4, httpx_cmd, current_input, some current_env⟩
        let r4 := run_command exec c4.command c4.input none c4.env dry_run
        -- lines 227-247: derive the clean-URL list from the detail file
        let step4 : Option String × List Effect :=
          if !dry_run then
            match readF httpx_details_file with
            | some content =>
              let clean_urls := clean_urls_of content
              (some (String.intercalate "\n" clean_urls),
               [Effect.fileWrite urls_for_burp_file (String.intercalate "\n" clean_urls)])
            | none => (none, [])
          else (current_input, [])
        let current_input : Option String := step4.1
        let effs4 := r4.2 ++ step4.2
        if !pyTruthy current_input && !dry_run then
          { stageCalls := [c1, c2, c3, c4], seederCall := none,
            effects := effs1 ++ r2.2 ++ r3.2 ++ effs4,
            warnedEmptyStage := some 4, summary := none, finalInput := current_input }
        else
          -- 5. katana (lines 254-266)
          let katana_output_file :=
            output_base_dir ++ "/" ++ target ++ "_katana_crawled_paths.txt"
          let katana_cmd := ["katana", "-jc", "-aff", "-kf", "all", "-silent"] ++
            (match proxy with
             | some _ => ["-proxy", proxy_url]
             | none => [])
          let c5 : StageCall := ⟨5, katana_cmd, current_input, some current_env⟩
          let r5 := run_command exec c5.command c5.input (some katana_output_file) c5.env dry_run
          -- 6. Burp seeding (lines 269-276)
          let seed : Option StageCall × List Effect :=
            match proxy with
            | some _ =>
              if !dry_run then
                let seed_cmd := ["httpx", "-silent", "-http-proxy", proxy_url,
                  "-l", urls_for_burp_file]
                let c6 : StageCall := ⟨6, seed_cmd, none, some current_env⟩
                let r6 := run_command exec c6.command c6.input none c6.env dry_run
                (some c6, r6.2)
              else (none, [])
            | none => (none, [])
          -- final summary (lines 279-289)
          let summaryBlock : SummaryBlock :=
            { resultsDir := abspath output_base_dir,
              proxyNotice := proxy.isSome,
              importFile :=
                match proxy with
                | some _ => none
                | none => some (target ++ "_urls_for_burp.txt") }
          { stageCalls := [c1, c2, c3, c4, c5], seederCall := seed.1,
            effects := effs1 ++ r2.2 ++ r3.2 ++ effs4 ++ r5.2 ++ seed.2,
            warnedEmptyStage := none, summary := some summaryBlock,
            finalInput := current_input }

/-! ## Setup and main (source lines 10, 41-62, 110-163) -/

/-- Source line 10: the five required external tools. -/
def TOOL_CHAIN : List String := ["subfinder", "dnsx", "naabu", "httpx", "katana"]

/-- Function `check_tools_installed` spawns `which <tool>` for every tool in the chain
(lines 45-48), before and regardless of any dry-run decision. -/
def check_tools_effects : List Effect :=
  TOOL_CHAIN.map fun t => Effect.spawn ["which", t] none none

/-- The tools whose `which` probe fails (lines 50-55): either path appends
the tool to `missing_tools`. -/
def missing_tools (exec : ExecOracle) : List String :=
  TOOL_CHAIN.filter fun t => (exec ["which", t] none none).returncode != 0

/-- Parsed command-line arguments (lines 117-126). -/
structure Config where
  domain : Option String
  list : Option String
  output_dir : String
  proxy : Option String
  dry_run : Bool
deriving DecidableEq

/-- Outcome of the target-resolution code (lines 131-143). -/
inductive TargetsResolution where
  | ok (targets : List String)
  | exitFileNotFound
  | uncaughtTypeError
  | exitNoTargets
deriving DecidableEq

/-- Lines 131-139: `if args.domain:` takes the single-domain branch only when
the value is truthy (present and non-empty); otherwise `open(args.list)` runs,
raising an uncaught `TypeError` when no list path was given and a caught
`FileNotFoundError` (error message, exit 1) when the file is absent. -/
def resolve_targets (domain : Option String) (listPath : Option String)
    (readF : String → Option String) : TargetsResolution :=
  if pyTruthy domain then
    TargetsResolution.ok [domain.getD ""]
  else
    match listPath with
    | none => TargetsResolution.uncaughtTypeError
    | some p =>
      match readF p with
      | none => TargetsResolution.exitFileNotFound
      | some content => TargetsResolution.ok (load_targets_of content)

/-- Lines 131-143 including the `if not targets:` emptiness check. -/
def resolve_and_check (domain : Option String) (listPath : Option String)
    (readF : String → Option String) : TargetsResolution :=
  match resolve_targets domain listPath readF with
  | TargetsResolution.ok ts =>
    if ts.isEmpty then TargetsResolution.exitNoTargets else TargetsResolution.ok ts
  | r => r

/-- Lines 151-158: `current_env = os.environ.copy()`, then proxy variables
are assigned into the copy only when a proxy was configured. -/
def setupEnv (os_environ : Env) (proxy : Option String) : Env :=
  match proxy with
  | some p =>
    envSet (envSet os_environ "HTTP_PROXY" ("http://" ++ p)) "HTTPS_PROXY" ("http://" ++ p)
  | none => os_environ

/-- The whole run: effect trace, per-target outcomes, and exit code. -/
structure MainOut where
  effects : List Effect
  outcomes : List TargetOutcome
  exitCode : Nat
deriving DecidableEq

/-- Source `main` (lines 110-289): tool check, target resolution, output
directory creation, proxy environment setup, then the per-target loop, with
`current_input` carried in scope from one iteration to the next (and reset at
line 169). -/
def mainRun (exec : ExecOracle) (readF : String → Option String)
    (abspath : String → String) (os_environ : Env) (args : Config) : MainOut :=
  if missing_tools exec ≠ [] then
    { effects := check_tools_effects, outcomes := [], exitCode := 1 }
  else
    match resolve_and_check args.domain args.list readF with
    | TargetsResolution.exitFileNotFound =>
      { effects := check_tools_effects, outcomes := [], exitCode := 1 }
    | TargetsResolution.uncaughtTypeError =>
      { effects := check_tools_effects, outcomes := [], exitCode := 1 }
    | TargetsResolution.exitNoTargets =>
      { effects := check_tools_effects, outcomes := [], exitCode := 1 }
    | TargetsResolution.ok targets =>
      let proxy_url :=
        match args.proxy with
        | some p => "http://" ++ p
        | none => ""
      let current_env := setupEnv os_environ args.proxy
      let init : List Effect × List TargetOutcome × Option String :=
        (check_tools_effects ++ [Effect.mkdir args.output_dir], [], none)
      let final := targets.foldl (fun acc target =>
        let o := processTargetWith exec readF abspath args.output_dir args.proxy
          proxy_url current_env args.dry_run acc.2.2 target
        (acc.1 ++ o.effects, acc.2.1 ++ [o], o.finalInput)) init
      { effects := final.1, outcomes := final.2.1, exitCode := 0 }

/-! ## Concrete worlds used by witnesses and counterexamples -/

/-- A world where every command (including the `which` probes) succeeds with
one line of output. -/
def execAllOk : ExecOracle := fun _ _ _ => ⟨0, "ok-line\n", ""⟩

/-- A world where dnsx resolves nothing and everything else succeeds. -/
def execStage2Empty : ExecOracle := fun cmd _ _ =>
  if cmd.head? = some "dnsx" then ⟨0, "", ""⟩ else ⟨0, "ok-line\n", ""⟩

/-- A world where subfinder finds nothing and everything else succeeds. -/
def execSubfinderEmpty : ExecOracle := fun cmd _ _ =>
  if cmd.head? = some "subfinder" then ⟨0, "", ""⟩ else ⟨0, "ok-line\n", ""⟩

/-- A world where every command fails with exit status 2. -/
def execRc2 : ExecOracle := fun _ _ _ => ⟨2, "leftover", "boom"⟩

/-- A world where every file read returns one httpx detail line. -/
def readFOk : String → Option String := fun _ => some "https://x 200\n"

/-- A concrete stand-in for `os.path.abspath`. -/
def abspath0 : String → String := fun s => "/abs/" ++ s


/-! ## Helper lemmas -/

/-- Stripping ignores a trailing newline, so a kept-newline line strips the
same as its newline-free piece. -/
theorem stripChars_append_newline (p : List Char) :
    stripChars (p ++ ['\n']) = stripChars p := by
  unfold stripChars
  rcases h : p.dropWhile Char.isWhitespace with _ | ⟨c, cs⟩
  · rw [List.dropWhile_append]
    simp [h]
  · rw [List.dropWhile_append]
    simp only [h, List.isEmpty_cons, Bool.false_eq_true, if_neg, ite_false]
    simp [List.dropWhile_cons]

/-- A per-line extraction that ignores trailing newlines and drops empty lines
gives the same results over kept-newline Python lines as over the plain
newline-separated pieces. -/
theorem filterMap_addNl {α : Type} (g : List Char → Option α)
    (hg : ∀ p, g (p ++ ['\n']) = g p) (hnil : g [] = none) :
    ∀ ps, (addNl ps).filterMap g = ps.filterMap g
  | [] => rfl
  | [p] => by
    by_cases h : p = []
    · simp [addNl, h, hnil]
    · simp [addNl, h]
  | p :: q :: r => by
    show ((p ++ ['\n']) :: addNl (q :: r)).filterMap g = (p :: q :: r).filterMap g
    rw [List.filterMap_cons, List.filterMap_cons, hg, filterMap_addNl g hg hnil (q :: r)]

/-- The strip-then-keep-nonblank comprehension is the same as mapping strip,
filtering out blanks and packaging the results. -/
theorem filterMap_strip_eq (ps : List (List Char)) :
    (ps.filterMap fun line =>
      let s := stripChars line
      if s = [] then none else some (String.mk s)) =
    ((ps.map stripChars).filter fun s => s ≠ []).map String.mk := by
  induction ps with
  | nil => rfl
  | cons p rest ih =>
    by_cases h : stripChars p = []
    · simp [List.filterMap_cons, List.filter_cons, h, ih]
    · simp [List.filterMap_cons, List.filter_cons, h, ih]

/-- The Target Loader comprehension equals its spec-side description. -/
theorem load_targets_spec_eq (content : String) :
    load_targets_of content = targetLoaderSpec content := by
  unfold load_targets_of targetLoaderSpec pyLinesL
  rw [filterMap_addNl _ (fun p => by
      simp only [stripChars_append_newline]) (by simp [stripChars])]
  exact filterMap_strip_eq _

/-- The stage-4 clean-URL extraction equals its spec-side description. -/
theorem clean_urls_spec_eq (content : String) :
    clean_urls_of content = cleanUrlSpec content := by
  unfold clean_urls_of cleanUrlSpec pyLinesL
  rw [filterMap_addNl _ (fun p => by
      simp only [stripChars_append_newline]) rfl]

/-- Lookup by a key distinct from the filtered-out key is unaffected by the
filtering done inside `envSet`. -/
theorem find?_filter_ne (e : Env) (k q : String) (h : q ≠ k) :
    (e.filter fun p => p.1 != k).find? (fun p => p.1 == q) = e.find? fun p => p.1 == q := by
  induction e with
  | nil => rfl
  | cons a as ih =>
    by_cases ha : a.1 = q
    · have hne : (a.1 != k) = true := by
        simp [ha, h]
      simp [List.filter_cons, hne, List.find?_cons, ha, h, ih]
    · by_cases hk : a.1 = k
      · have : (a.1 != k) = false := by simp [hk]
        simp [List.filter_cons, this, List.find?_cons, ha, h, ih]
      · have : (a.1 != k) = true := by simp [hk]
        simp [List.filter_cons, this, List.find?_cons, ha, h, ih]

/-- Assignment followed by lookup of the same key yields the assigned value. -/
theorem envGet_envSet_self (e : Env) (k v : String) : envGet (envSet e k v) k = some v := by
  simp [envGet, envSet, List.find?_cons]

/-- Assignment leaves lookups of other keys unchanged. -/
theorem envGet_envSet_ne (e : Env) (k q v : String) (h : q ≠ k) :
    envGet (envSet e k v) q = envGet e q := by
  have hne : ((k, v).1 == q) = false := beq_eq_false_iff_ne.mpr (Ne.symm h)
  simp only [envGet, envSet, List.find?_cons, hne]
  rw [find?_filter_ne e k q h]

/-- With a proxy configured, the prepared environment maps HTTP_PROXY to the
proxy URL. -/
theorem setupEnv_http (os_environ : Env) (p : String) :
    envGet (setupEnv os_environ (some p)) "HTTP_PROXY" = some ("http://" ++ p) := by
  unfold setupEnv
  rw [envGet_envSet_ne _ _ _ _ (by decide), envGet_envSet_self]

/-- With a proxy configured, the prepared environment maps HTTPS_PROXY to the
proxy URL. -/
theorem setupEnv_https (os_environ : Env) (p : String) :
    envGet (setupEnv os_environ (some p)) "HTTPS_PROXY" = some ("http://" ++ p) := by
  unfold setupEnv
  rw [envGet_envSet_self]

/-- In dry-run mode one target-loop iteration performs no file-system or
process effect at all. -/
theorem processTarget_dry_effects (exec : ExecOracle) (readF : String → Option String)
    (abspath : String → String) (output_base_dir : String) (proxy : Option String)
    (proxy_url : String) (current_env : Env) (stale : Option String) (target : String) :
    (processTargetWith exec readF abspath output_base_dir proxy proxy_url current_env
      true stale target).effects = [] := by
  cases proxy <;> simp [processTargetWith, run_command, pyTruthy]

/-- In dry-run mode the target loop adds nothing to the effect trace. -/
theorem foldl_dry_keeps_effects (exec : ExecOracle) (readF : String → Option String)
    (abspath : String → String) (output_dir : String) (proxy : Option String)
    (proxy_url : String) (current_env : Env) :
    ∀ (targets : List String) (acc : List Effect × List TargetOutcome × Option String),
      (targets.foldl (fun acc target =>
        let o := processTargetWith exec readF abspath output_dir proxy proxy_url
          current_env true acc.2.2 target
        (acc.1 ++ o.effects, acc.2.1 ++ [o], o.finalInput)) acc).1 = acc.1
  | [], acc => rfl
  | t :: ts, acc => by
    rw [List.foldl_cons]
    rw [foldl_dry_keeps_effects exec readF abspath output_dir proxy proxy_url current_env ts _]
    simp [processTarget_dry_effects]

/-- Every effect of the tool-availability check is a `which` probe. -/
theorem mem_check_tools (e : Effect) (he : e ∈ check_tools_effects) :
    ∃ t, e = Effect.spawn ["which", t] none none := by
  simp only [check_tools_effects, List.mem_map] at he
  obtain ⟨t, -, rfl⟩ := he
  exact ⟨t, rfl⟩

/-- Stage calls 1-3 carry no explicit environment while stage calls 4 and 5
carry exactly the prepared environment, in every iteration. -/
theorem stageCalls_env_shape (exec : ExecOracle) (readF : String → Option String)
    (abspath : String → String) (output_base_dir : String) (proxy : Option String)
    (proxy_url : String) (current_env : Env) (dry_run : Bool) (stale : Option String)
    (target : String) :
    ∀ c ∈ (processTargetWith exec readF abspath output_base_dir proxy proxy_url
      current_env dry_run stale target).stageCalls,
      (c.idx ≤ 3 → c.env = none) ∧ (4 ≤ c.idx → c.env = some current_env) := by
  unfold processTargetWith
  dsimp only
  repeat' split
  all_goals intro c hc
  all_goals fin_cases hc
  all_goals refine ⟨fun h3 => ?_, fun h4 => ?_⟩
  all_goals first | rfl | (dsimp only at h3; omega) | (dsimp only at h4; omega)

/-! ## Claim C1 (dry-run frame) -/

/-- Claim C1 counterexample: in a concrete dry-run configuration the program
still creates the output directory (`os.makedirs` runs before any dry-run
branching) and still starts external `which` subprocesses for the tool check,
so dry-run is not free of file creation and subprocess launches. -/
theorem c1_dry_run_counterexample :
    Effect.mkdir "out" ∈ (mainRun execAllOk readFOk abspath0 []
      { domain := some "a.com", list := none, output_dir := "out",
        proxy := none, dry_run := true }).effects ∧
    Effect.spawn ["which", "subfinder"] none none ∈ (mainRun execAllOk readFOk abspath0 []
      { domain := some "a.com", list := none, output_dir := "out",
        proxy := none, dry_run := true }).effects := by decide

/-- Claim C1 (amended): with the dry-run flag set, for every configuration of
proxy, target source and output directory, every recorded effect of the run
is either a `which` probe of the tool-availability check or the idempotent
creation of the output directory: no stage or seeder subprocess is started
and no file is written. -/
theorem c1_dry_run_frame (exec : ExecOracle) (readF : String → Option String)
    (abspath : String → String) (os_environ : Env) (domain listPath proxy : Option String)
    (output_dir : String) (out : MainOut)
    (hout : out = mainRun exec readF abspath os_environ
      { domain := domain, list := listPath, output_dir := output_dir,
        proxy := proxy, dry_run := true }) :
    ∀ e ∈ out.effects,
      (∃ t, e = Effect.spawn ["which", t] none none) ∨ e = Effect.mkdir output_dir := by
  subst hout
  intro e he
  unfold mainRun at he
  split at he
  · exact Or.inl (mem_check_tools e he)
  · split at he
    case h_1 => exact Or.inl (mem_check_tools e he)
    case h_2 => exact Or.inl (mem_check_tools e he)
    case h_3 => exact Or.inl (mem_check_tools e he)
    case h_4 =>
      dsimp only at he
      rw [foldl_dry_keeps_effects] at he
      rcases List.mem_append.mp he with hw | hm
      · exact Or.inl (mem_check_tools e hw)
      · exact Or.inr (List.mem_singleton.mp hm)

/-- Claim C1 witness: the frame theorem applied to the directory-creation
effect of a concrete dry run. -/
theorem c1_dry_run_frame_witness :
    (∃ t, (Effect.mkdir "out" : Effect) = Effect.spawn ["which", t] none none) ∨
      (Effect.mkdir "out" : Effect) = Effect.mkdir "out" :=
  c1_dry_run_frame execAllOk readFOk abspath0 [] (some "a.com") none none "out" _ rfl
    (Effect.mkdir "out") (by decide)

/-! ## Claim C2 (failing-subprocess result) -/

/-- Claim C2 counterexample: when the subprocess exits with status 2, the
returned result carries returncode 1 (hardcoded in the handler on source line
102), not the actual exit status of the subprocess. -/
theorem c2_exit_status_counterexample :
    (execRc2 ["tool"] none none).returncode = 2 ∧
    (run_command execRc2 ["tool"] none none none false).1.returncode = 1 ∧
    ¬(run_command execRc2 ["tool"] none none none false).1.returncode =
      (execRc2 ["tool"] none none).returncode := by decide

/-- Claim C2 (amended): for every non-zero-exit invocation the Process Runner
does not raise and returns a structured result with the constant exit status
1 (not necessarily the actual status of the subprocess), the captured
standard error of the subprocess, and empty captured standard output. -/
theorem c2_failure_result (exec : ExecOracle) (command : List String)
    (input_data : Option String) (output_file : Option String) (environment : Option Env)
    (h : (exec command input_data environment).returncode ≠ 0) :
    (run_command exec command input_data output_file environment false).1 =
      { returncode := 1, stdout := "",
        stderr := (exec command input_data environment).stderr } := by
  simp [run_command, h]

/-- Claim C2 witness: the failure-result theorem applied in a world where the
tool exits with status 2 and stderr "boom". -/
theorem c2_failure_result_witness :
    (run_command execRc2 ["tool"] none (some "f.txt") none false).1 =
      { returncode := 1, stdout := "", stderr := "boom" } :=
  c2_failure_result execRc2 ["tool"] none (some "f.txt") none (by decide)

/-! ## Claim C3 (per-target invocation count) -/

/-- Claim C3: in a non-dry run, a target for which no stage warned about
empty output has exactly five stage commands invoked, and a target whose
first empty stage is stage k (the stage named by the Stopping-chain warning,
always among 1-4) has exactly k stage commands invoked, the remaining stages
being abandoned.  The Burp-seeding call is recorded separately and is not a
pipeline stage. -/
theorem c3_stage_invocation_count (exec : ExecOracle) (readF : String → Option String)
    (abspath : String → String) (output_base_dir : String) (proxy : Option String)
    (proxy_url : String) (current_env : Env) (stale : Option String) (target : String)
    (o : TargetOutcome)
    (ho : o = processTargetWith exec readF abspath output_base_dir proxy proxy_url
      current_env false stale target) :
    (o.warnedEmptyStage = none → o.stageCalls.length = 5) ∧
    (∀ k, o.warnedEmptyStage = some k → o.stageCalls.length = k ∧ 1 ≤ k ∧ k ≤ 4) := by
  subst ho
  unfold processTargetWith
  dsimp only
  repeat' split
  all_goals refine ⟨fun h => ?_, fun k hk => ?_⟩
  all_goals
    first
      | (simp at h; done)
      | (simp at hk; done)
      | (simp at hk; subst hk; refine ⟨by simp, by omega, by omega⟩)
      | simp

/-- Claim C3 witness: in a world where dnsx resolves nothing, the invocation
count for the target is exactly 2 (stages 1 and 2). -/
theorem c3_stage_invocation_count_witness :
    (processTargetWith execStage2Empty readFOk abspath0 "out" none "" [] false
      none "a.com").stageCalls.length = 2 ∧ 1 ≤ 2 ∧ 2 ≤ 4 :=
  (c3_stage_invocation_count execStage2Empty readFOk abspath0 "out" none "" [] none
    "a.com" _ rfl).2 2 (by decide)

/-! ## Claim C4 (per-target summary block) -/

/-- Claim C4 counterexample: a target whose stage 1 yields empty output is
abandoned by `continue` before the summary code, so no summary block is
printed for it, contradicting the claim that every processed target
(including early-stopped ones) gets a summary. -/
theorem c4_summary_counterexample :
    (mainRun execSubfinderEmpty readFOk abspath0 []
      { domain := some "a.com", list := none, output_dir := "out",
        proxy := none, dry_run := false }).outcomes.map TargetOutcome.warnedEmptyStage =
      [some 1] ∧
    (mainRun execSubfinderEmpty readFOk abspath0 []
      { domain := some "a.com", list := none, output_dir := "out",
        proxy := none, dry_run := false }).outcomes.map TargetOutcome.summary = [none] := by
  decide

/-- Claim C4 (amended): the summary block is printed for a target exactly
when the pipeline was not stopped early by an empty stage (so it reached the
end of the loop body), and when printed it contains the absolute path of the
output directory and the proxy-traffic notice when a proxy is configured, or
the manual-import notice naming the clean-URL file when none is. -/
theorem c4_summary_exactly_on_completion (exec : ExecOracle) (readF : String → Option String)
    (abspath : String → String) (output_base_dir : String) (proxy : Option String)
    (proxy_url : String) (current_env : Env) (dry_run : Bool) (stale : Option String)
    (target : String) (o : TargetOutcome)
    (ho : o = processTargetWith exec readF abspath output_base_dir proxy proxy_url
      current_env dry_run stale target) :
    (o.summary.isSome ↔ o.warnedEmptyStage = none) ∧
    (∀ sb, o.summary = some sb →
      sb.resultsDir = abspath output_base_dir ∧
      sb.proxyNotice = proxy.isSome ∧
      (proxy = none → sb.importFile = some (target ++ "_urls_for_burp.txt")) ∧
      (∀ p, proxy = some p → sb.importFile = none)) := by
  subst ho
  unfold processTargetWith
  dsimp only
  repeat' split
  all_goals refine ⟨by simp, fun sb hsb => ?_⟩
  all_goals
    first
      | (simp at hsb; done)
      | (simp at hsb; subst hsb; simp)

/-- Claim C4 witness: the summary theorem applied to a concrete full run
without a proxy, whose summary block names the clean-URL file. -/
theorem c4_summary_witness :
    ((⟨"/abs/out", false, some "a.com_urls_for_burp.txt"⟩ : SummaryBlock).resultsDir =
      abspath0 "out") ∧
    ((⟨"/abs/out", false, some "a.com_urls_for_burp.txt"⟩ : SummaryBlock).proxyNotice =
      (none : Option String).isSome) ∧
    ((none : Option String) = none →
      (⟨"/abs/out", false, some "a.com_urls_for_burp.txt"⟩ : SummaryBlock).importFile =
        some ("a.com" ++ "_urls_for_burp.txt")) ∧
    (∀ p, (none : Option String) = some p →
      (⟨"/abs/out", false, some "a.com_urls_for_burp.txt"⟩ : SummaryBlock).importFile = none) :=
  (c4_summary_exactly_on_completion execAllOk readFOk abspath0 "out" none "" [] false
    none "a.com" _ rfl).2
    ⟨"/abs/out", false, some "a.com_urls_for_burp.txt"⟩ (by decide)

/-! ## Claim C5 (proxy environment wiring) -/

/-- Claim C5 counterexample: stages 1-3 are invoked with no explicit
environment, so the subprocess inherits the calling-process environment; when
that environment already contains HTTP_PROXY, stages 1-3 do receive a proxy
variable, contradicting the claim that for any configuration their
environments contain no such variables. -/
theorem c5_inherited_proxy_counterexample :
    (processTargetWith execAllOk readFOk abspath0 "out" (some "127.0.0.1:8080")
      "http://127.0.0.1:8080"
      (setupEnv [("HTTP_PROXY", "http://pre:1")] (some "127.0.0.1:8080"))
      false none "a.com").stageCalls.map
        (fun c => envGet (receivedEnv c.env [("HTTP_PROXY", "http://pre:1")]) "HTTP_PROXY") =
      [some "http://pre:1", some "http://pre:1", some "http://pre:1",
       some "http://127.0.0.1:8080", some "http://127.0.0.1:8080"] := by decide

/-- Claim C5 (amended): with a proxy configured, the stage-4 and stage-5
invocations receive the prepared environment in which HTTP_PROXY and
HTTPS_PROXY both map to the proxy URL; stages 1-3 are passed no explicit
environment mapping (the script injects nothing into them), and whenever the
pre-existing process environment is free of both proxy variables, the
environments the stage-1-3 subprocesses inherit contain neither. -/
theorem c5_proxy_environment_wiring (exec : ExecOracle) (readF : String → Option String)
    (abspath : String → String) (output_base_dir : String) (addr : String)
    (os_environ : Env) (stale : Option String) (target : String) (o : TargetOutcome)
    (ho : o = processTargetWith exec readF abspath output_base_dir (some addr)
      ("http://" ++ addr) (setupEnv os_environ (some addr)) false stale target) :
    (∀ c ∈ o.stageCalls, c.idx ≤ 3 → c.env = none) ∧
    (∀ c ∈ o.stageCalls, 4 ≤ c.idx →
      c.env = some (setupEnv os_environ (some addr)) ∧
      envGet (setupEnv os_environ (some addr)) "HTTP_PROXY" = some ("http://" ++ addr) ∧
      envGet (setupEnv os_environ (some addr)) "HTTPS_PROXY" = some ("http://" ++ addr)) ∧
    (envGet os_environ "HTTP_PROXY" = none → envGet os_environ "HTTPS_PROXY" = none →
      ∀ c ∈ o.stageCalls, c.idx ≤ 3 →
        envGet (receivedEnv c.env os_environ) "HTTP_PROXY" = none ∧
        envGet (receivedEnv c.env os_environ) "HTTPS_PROXY" = none) := by
  have hshape := stageCalls_env_shape exec readF abspath output_base_dir (some addr)
    ("http://" ++ addr) (setupEnv os_environ (some addr)) false stale target
  subst ho
  refine ⟨fun c hc h3 => (hshape c hc).1 h3,
    fun c hc h4 => ⟨(hshape c hc).2 h4, setupEnv_http _ _, setupEnv_https _ _⟩,
    fun h1 h2 c hc h3 => ?_⟩
  rw [(hshape c hc).1 h3]
  exact ⟨h1, h2⟩

/-- Claim C5 witness: the wiring theorem applied to the concrete stage-1 call
of a proxied run, showing it is passed no explicit environment. -/
theorem c5_proxy_environment_witness :
    (⟨1, ["subfinder", "-d", "a.com", "-silent"], none, none⟩ : StageCall).env = none :=
  (c5_proxy_environment_wiring execAllOk readFOk abspath0 "out" "127.0.0.1:8080" []
    none "a.com" _ rfl).1
    ⟨1, ["subfinder", "-d", "a.com", "-silent"], none, none⟩ (by decide) (by decide)

/-! ## Claim C6 (Target Loader) -/

/-- Claim C6: the Target Loader produces exactly the lines of the list file
with surrounding whitespace trimmed, blank lines discarded and order
preserved, without deduplication; in particular the file content
"a.com\n\n  b.com \n" yields the targets a.com and b.com. -/
theorem c6_target_loader (content : String) :
    load_targets_of content = targetLoaderSpec content ∧
    load_targets_of "a.com\n\n  b.com \n" = ["a.com", "b.com"] ∧
    load_targets_of "a.com\na.com\n" = ["a.com", "a.com"] :=
  ⟨load_targets_spec_eq content, by decide, by decide⟩

/-! ## Claim C7 (clean-URL extraction) -/

/-- Claim C7: the derived clean-URL list consists of exactly the first
whitespace-delimited token of each non-blank (after trimming) detail line, in
order, with blank lines skipped; in particular the two example detail lines
yield their two URL columns. -/
theorem c7_clean_url_extraction (content : String) :
    clean_urls_of content = cleanUrlSpec content ∧
    clean_urls_of "https://a.com 200 1234 Title Here\nhttps://b.com 403 0 Forbidden\n" =
      ["https://a.com", "https://b.com"] ∧
    clean_urls_of "https://a.com 200 1234 Title Here\n\nhttps://b.com 403 0 Forbidden\n" =
      ["https://a.com", "https://b.com"] :=
  ⟨clean_urls_spec_eq content, by decide, by decide⟩

/-! ## Claim C8 (no stale input across targets) -/

/-- Claim C8: one target-loop iteration is entirely independent of the
current-input buffer left over from the previous target (line 169 resets it),
and the stage-2 call of the iteration is fed exactly the fresh stage-1
(subfinder) stdout of the same iteration. -/
theorem c8_no_stale_input (exec : ExecOracle) (readF : String → Option String)
    (abspath : String → String) (output_base_dir : String) (proxy : Option String)
    (proxy_url : String) (current_env : Env) (dry_run : Bool) (target : String) :
    (∀ s1 s2, processTargetWith exec readF abspath output_base_dir proxy proxy_url
        current_env dry_run s1 target =
      processTargetWith exec readF abspath output_base_dir proxy proxy_url
        current_env dry_run s2 target) ∧
    (∀ c ∈ (processTargetWith exec readF abspath output_base_dir proxy proxy_url
        current_env dry_run none target).stageCalls,
      c.idx = 2 →
        c.input = some (run_command exec ["subfinder", "-d", target, "-silent"]
          none none none dry_run).1.stdout) := by
  refine ⟨fun s1 s2 => rfl, ?_⟩
  unfold processTargetWith
  dsimp only
  repeat' split
  all_goals intro c hc hidx
  all_goals fin_cases hc <;> first | rfl | simp at hidx

/-- Claim C8 witness: a concrete iteration started with a leftover buffer
equals the same iteration started with none, and its stage-2 input is the
fresh stage-1 output. -/
theorem c8_no_stale_input_witness :
    (processTargetWith execAllOk readFOk abspath0 "out" none "" [] false
        (some "stale") "a.com" =
      processTargetWith execAllOk readFOk abspath0 "out" none "" [] false
        none "a.com") ∧
    (⟨2, ["dnsx", "-silent"], some "ok-line\n", none⟩ : StageCall).input =
      some (run_command execAllOk ["subfinder", "-d", "a.com", "-silent"]
        none none none false).1.stdout :=
  ⟨(c8_no_stale_input execAllOk readFOk abspath0 "out" none "" [] false "a.com").1
      (some "stale") none,
   (c8_no_stale_input execAllOk readFOk abspath0 "out" none "" [] false "a.com").2
      ⟨2, ["dnsx", "-silent"], some "ok-line\n", none⟩ (by decide) rfl⟩

/-! ## Claim C9 (no output file on failure) -/

/-- Claim C9: when an output file path is given and the subprocess exits
non-zero, the effect trace of the runner contains only the spawn and no file
write, so the designated output file is left absent or unchanged. -/
theorem c9_no_write_on_failure (exec : ExecOracle) (command : List String)
    (input_data : Option String) (path : String) (environment : Option Env)
    (h : (exec command input_data environment).returncode ≠ 0) :
    (run_command exec command input_data (some path) environment false).2 =
      [Effect.spawn command input_data environment] := by
  simp [run_command, h]

/-- Claim C9 witness: the no-write theorem applied in a world where the tool
exits with status 2. -/
theorem c9_no_write_on_failure_witness :
    (run_command execRc2 ["tool"] none (some "out/f.txt") none false).2 =
      [Effect.spawn ["tool"] none none] :=
  c9_no_write_on_failure execRc2 ["tool"] none "out/f.txt" none (by decide)

/-! ## Claim C10 (empty single-domain value) -/

/-- Claim C10 counterexample: with the single-domain option set to the empty
string, target resolution does not produce the one-element list containing
the empty string; the empty string is falsy, control falls into the
list-file branch with no list path, and the run dies with an uncaught
TypeError from `open(None)`. -/
theorem c10_empty_domain_counterexample :
    resolve_and_check (some "") none readFOk = TargetsResolution.uncaughtTypeError ∧
    ¬resolve_and_check (some "") none readFOk = TargetsResolution.ok [""] := by decide

/-- Claim C10 (amended): for every file-reading world, supplying the
single-domain option with an empty string (and hence no list path) makes
target resolution take the list branch and raise the uncaught TypeError of
`open(None)`: the process exits non-zero before any target is processed, and
neither the one-element empty-string target list nor the no-valid-targets
error occurs. -/
theorem c10_empty_domain_crash (readF : String → Option String) :
    resolve_and_check (some "") none readF = TargetsResolution.uncaughtTypeError := rfl

end EnumChain
